import Mathlib

/-!
Shallow embedding of the remoteness-scoring service in src/server.js.

JavaScript numbers are modelled as rationals, nullable fields as Option,
the in-memory ZIP store (the globals zipData and zipIndex) as an explicit
Store value threaded through the load and reload operations, and the
outcome of reading and parsing zips.json as an Option (List ZipRecord)
argument (none models an unreadable or unparseable source, where the
readFileSync or JSON.parse call throws).
-/

namespace RemotenessApi

/-- A record of the external ZIP dataset (one element of zips.json).
Fields absent in JSON are none; the boolean fields are read through the
double-negation coercion in the source, so they are modelled as Bool. -/
structure ZipRecord where
  zip : Option String
  city : Option String
  state : Option String
  population_density : Option ℚ
  drive_time_city_100k_min : Option ℚ
  drive_time_interstate_min : Option ℚ
  is_mountain : Bool
  is_island : Bool
  winter_risk : Bool
  carrier_scarcity_index : Option ℚ
  deriving Repr, DecidableEq

/-- The components object built by computeRemotenessComponents
(src/server.js lines 52-58). -/
structure Components where
  densityScore : ℕ
  metroAccessScore : ℕ
  roadTerrainScore : ℕ
  carrierScore : ℕ
  totalScore : ℕ
  deriving Repr, DecidableEq

/-- Density score block (src/server.js lines 72-79). -/
def densityScoreOf : Option ℚ → ℕ
  | none => 0
  | some density =>
    if density < 150 then 2
    else if density < 500 then 1
    else 0

/-- Metro access score block (src/server.js lines 81-92): the city drive
time contribution and the interstate drive time contribution are additive. -/
def metroAccessScoreOf (driveCity driveInterstate : Option ℚ) : ℕ :=
  (match driveCity with
    | none => 0
    | some t => if t > 90 then 2 else if t > 60 then 1 else 0) +
  (match driveInterstate with
    | none => 0
    | some t => if t > 30 then 1 else 0)

/-- The winter months list (src/server.js line 103). -/
def winterMonths : List ℕ := [11, 12, 1, 2, 3]

/-- Road and terrain score block (src/server.js lines 94-106). -/
def roadTerrainScoreOf (isMountain isIsland winterRisk : Bool) (month : ℕ) : ℕ :=
  (if isMountain then 1 else 0) +
  (if isIsland then 1 else 0) +
  (if winterRisk && winterMonths.contains month then 1 else 0)

/-- Carrier scarcity score block (src/server.js lines 108-113). -/
def carrierScoreOf (carrierScarcity : ℚ) : ℕ :=
  if carrierScarcity > mkRat 7 10 then 2
  else if carrierScarcity > mkRat 4 10 then 1
  else 0

/-- computeRemotenessComponents (src/server.js lines 51-122): a missing
record returns the all-zero components; otherwise the four blocks run and
totalScore is assigned as their sum (lines 115-119). -/
def computeRemotenessComponents : Option ZipRecord → ℕ → Components
  | none, _ => ⟨0, 0, 0, 0, 0⟩
  | some z, month =>
    let densityScore := densityScoreOf z.population_density
    let metroAccessScore :=
      metroAccessScoreOf z.drive_time_city_100k_min z.drive_time_interstate_min
    let roadTerrainScore :=
      roadTerrainScoreOf z.is_mountain z.is_island z.winter_risk month
    let carrierScore := carrierScoreOf (z.carrier_scarcity_index.getD 0)
    ⟨densityScore, metroAccessScore, roadTerrainScore, carrierScore,
      densityScore + metroAccessScore + roadTerrainScore + carrierScore⟩

/-- The four categories returned by categorizeScore. -/
inductive Category where
  | URBAN_EASY
  | NORMAL
  | RURAL_DIFFICULT
  | REMOTE_PREMIUM
  deriving Repr, DecidableEq

/-- categorizeScore (src/server.js lines 124-134). -/
def categorizeScore (totalScore : ℕ) : Category :=
  if totalScore ≤ 2 then Category.URBAN_EASY
  else if totalScore ≤ 4 then Category.NORMAL
  else if totalScore ≤ 6 then Category.RURAL_DIFFICULT
  else Category.REMOTE_PREMIUM

/-- The surcharge object shape returned by suggestedSurcharge. -/
structure SurchargeRange where
  currency : String
  type : String
  min : ℕ
  max : ℕ
  deriving Repr, DecidableEq

/-- suggestedSurcharge (src/server.js lines 136-150). The default branch
of the source switch is unreachable here because Category has exactly the
four listed values. -/
def suggestedSurcharge : Category → SurchargeRange
  | Category.URBAN_EASY => ⟨"USD", "lump_sum", 0, 0⟩
  | Category.NORMAL => ⟨"USD", "lump_sum", 25, 50⟩
  | Category.RURAL_DIFFICULT => ⟨"USD", "lump_sum", 75, 150⟩
  | Category.REMOTE_PREMIUM => ⟨"USD", "lump_sum", 150, 300⟩

/-- The trip-level surcharge combination (src/server.js lines 228-233):
element-wise sum of the two endpoint surcharges, fixed currency and type. -/
def totalSurcharge (pickupSurcharge deliverySurcharge : SurchargeRange) : SurchargeRange :=
  ⟨"USD", "lump_sum",
    pickupSurcharge.min + deliverySurcharge.min,
    pickupSurcharge.max + deliverySurcharge.max⟩

/-- One index-update step of the forEach loop in loadZipData
(src/server.js lines 23-27): a record with a truthy zip key overwrites
the entry at that key, other records leave the index unchanged. -/
def indexStep (idx : String → Option ZipRecord) (z : ZipRecord) : String → Option ZipRecord :=
  match z.zip with
  | none => idx
  | some k => if k = "" then idx else fun q => if q = k then some z else idx q

/-- The zipIndex built from a parsed dataset (src/server.js lines 22-27),
starting from the empty object. -/
def buildZipIndex (zs : List ZipRecord) : String → Option ZipRecord :=
  zs.foldl indexStep (fun _ => none)

/-- The process-wide store: the zipData array and the zipIndex object
(src/server.js lines 14-15). -/
structure Store where
  zipData : List ZipRecord
  zipIndex : String → Option ZipRecord

/-- loadZipData (src/server.js lines 17-35): on a successful parse the
dataset and index are replaced wholesale; when reading or parsing throws,
the catch block resets both globals to empty. -/
def loadZipData (prev : Store) (parsed : Option (List ZipRecord)) : Store :=
  match parsed with
  | some zs => ⟨zs, buildZipIndex zs⟩
  | none => ⟨[], fun _ => none⟩

/-- The JSON body returned by the reload endpoint. -/
structure ReloadResponse where
  status : String
  total_zips : ℕ
  deriving Repr, DecidableEq

/-- The reload endpoint (src/server.js lines 258-261): it runs loadZipData
and unconditionally answers status reloaded with the current zipData
length. -/
def reloadZips (prev : Store) (parsed : Option (List ZipRecord)) :
    Store × ReloadResponse :=
  let s := loadZipData prev parsed
  (s, ⟨"reloaded", s.zipData.length⟩)

/-- Modelled from the claim wording for the duplicate-key behaviour: the
record that appears last in the source sequence whose (truthy) zip key
equals the looked-up key, if any. -/
def lastRecordWithKey : List ZipRecord → String → Option ZipRecord
  | [], _ => none
  | z :: zs, k =>
    match lastRecordWithKey zs k with
    | some w => some w
    | none =>
      if z.zip = some k ∧ k ≠ "" then some z else none

/-- The example record of the spec test vector (population density 100,
city drive 95, interstate drive 40, mountainous, not island, winter risk,
carrier scarcity 0.8). -/
def rec3 : ZipRecord :=
  ⟨some "73001", some "Exampleville", some "OK",
    some 100, some 95, some 40, true, false, true, some (mkRat 8 10)⟩

/-- A record with a valid key and no other data. -/
def recA : ZipRecord :=
  ⟨some "11111", none, none, none, none, none, false, false, false, none⟩

/-- A record with no zip key at all: skipped by the index build. -/
def recNoKey : ZipRecord :=
  ⟨none, none, none, none, none, none, false, false, false, none⟩

/-- A record whose only scoring-relevant attribute is winter risk. -/
def recWinter : ZipRecord :=
  ⟨some "99901", none, none, none, none, none, false, false, true, none⟩

/-- The empty store (initial state before any load). -/
def store0 : Store := ⟨[], fun _ => none⟩

/-- A store holding exactly the record recA, as after a successful load. -/
def store1 : Store := loadZipData store0 (some [recA])

/-- The density block scores at most 2. -/
theorem densityScoreOf_le (d : Option ℚ) : densityScoreOf d ≤ 2 := by
  rcases d with _ | d
  · simp [densityScoreOf]
  · simp only [densityScoreOf]
    split_ifs <;> omega

/-- The metro access block scores at most 3 (2 for the city drive time
plus 1 for the interstate drive time). -/
theorem metroAccessScoreOf_le (a b : Option ℚ) : metroAccessScoreOf a b ≤ 3 := by
  rcases a with _ | t <;> rcases b with _ | u <;> simp only [metroAccessScoreOf] <;>
    first
      | omega
      | split_ifs <;> omega

/-- The road and terrain block scores at most 3. -/
theorem roadTerrainScoreOf_le (a b c : Bool) (m : ℕ) : roadTerrainScoreOf a b c m ≤ 3 := by
  simp only [roadTerrainScoreOf]
  split_ifs <;> omega

/-- The carrier block scores at most 2. -/
theorem carrierScoreOf_le (q : ℚ) : carrierScoreOf q ≤ 2 := by
  simp only [carrierScoreOf]
  split_ifs <;> omega

/-- Claim C3: the spec test vector (density 100, city drive 95,
interstate 40, mountainous, not island, winter risk, scarcity 0.8) at
month 1 scores density 2, metro access 3, road terrain 2, carrier 2,
total 9, category REMOTE_PREMIUM, surcharge 150 to 300 USD. -/
theorem C3_example_vector :
    computeRemotenessComponents (some rec3) 1 = ⟨2, 3, 2, 2, 9⟩ ∧
    categorizeScore (computeRemotenessComponents (some rec3) 1).totalScore =
      Category.REMOTE_PREMIUM ∧
    suggestedSurcharge
        (categorizeScore (computeRemotenessComponents (some rec3) 1).totalScore) =
      ⟨"USD", "lump_sum", 150, 300⟩ := by
  refine ⟨by decide, by decide, by decide⟩

/-- Claim C4: for every record (present or absent) and every month, the
total equals the sum of the four components exactly, and each component
is a non-negative integer (the scores live in the natural numbers). -/
theorem C4_total_is_component_sum (r : Option ZipRecord) (m : ℕ) :
    (computeRemotenessComponents r m).totalScore =
      (computeRemotenessComponents r m).densityScore +
      (computeRemotenessComponents r m).metroAccessScore +
      (computeRemotenessComponents r m).roadTerrainScore +
      (computeRemotenessComponents r m).carrierScore ∧
    0 ≤ (computeRemotenessComponents r m).densityScore ∧
    0 ≤ (computeRemotenessComponents r m).metroAccessScore ∧
    0 ≤ (computeRemotenessComponents r m).roadTerrainScore ∧
    0 ≤ (computeRemotenessComponents r m).carrierScore := by
  rcases r with _ | z <;> exact ⟨rfl, Nat.zero_le _, Nat.zero_le _, Nat.zero_le _, Nat.zero_le _⟩

/-- Claim C5: categorizeScore partitions the non-negative totals into the
four contiguous ranges with no gaps or overlaps: 0 to 2 URBAN_EASY, 3 to
4 NORMAL, 5 to 6 RURAL_DIFFICULT, 7 and up REMOTE_PREMIUM. -/
theorem C5_categorize_partition (n : ℕ) :
    (categorizeScore n = Category.URBAN_EASY ↔ n ≤ 2) ∧
    (categorizeScore n = Category.NORMAL ↔ 3 ≤ n ∧ n ≤ 4) ∧
    (categorizeScore n = Category.RURAL_DIFFICULT ↔ 5 ≤ n ∧ n ≤ 6) ∧
    (categorizeScore n = Category.REMOTE_PREMIUM ↔ 7 ≤ n) := by
  unfold categorizeScore
  split_ifs with h1 h2 h3 <;> refine ⟨?_, ?_, ?_, ?_⟩ <;> constructor <;> intro h <;>
    first
      | omega
      | rfl
      | simp at h

/-- Claim C7: the trip-level combination of two surcharge ranges sums the
minima and the maxima element-wise, with the fixed currency and range
type, and applies no other adjustment. -/
theorem C7_trip_surcharge_elementwise_sum (a b : SurchargeRange) :
    (totalSurcharge a b).min = a.min + b.min ∧
    (totalSurcharge a b).max = a.max + b.max ∧
    (totalSurcharge a b).currency = "USD" ∧
    (totalSurcharge a b).type = "lump_sum" :=
  ⟨rfl, rfl, rfl, rfl⟩

/-- Claim C8: scoring an absent record yields the all-zero components for
every month, so categorization gives URBAN_EASY and the surcharge is the
zero range; the function is total, so this path never fails. -/
theorem C8_absent_record_zero (m : ℕ) :
    computeRemotenessComponents none m = ⟨0, 0, 0, 0, 0⟩ ∧
    categorizeScore (computeRemotenessComponents none m).totalScore =
      Category.URBAN_EASY ∧
    suggestedSurcharge
        (categorizeScore (computeRemotenessComponents none m).totalScore) =
      ⟨"USD", "lump_sum", 0, 0⟩ :=
  ⟨rfl, rfl, rfl⟩

/-- Claim C2 counterexample: the spec test vector itself scores total 9
at month 1, so the total is not bounded by 8 as the claim states (month 1
lies in 1..12). -/
theorem C2_counterexample_total_nine :
    (1 : ℕ) ≤ 1 ∧ (1 : ℕ) ≤ 12 ∧
    (computeRemotenessComponents (some rec3) 1).totalScore = 9 ∧
    ¬ (computeRemotenessComponents (some rec3) 1).totalScore ≤ 8 := by
  refine ⟨by decide, by decide, by decide, by decide⟩

/-- Claim C2 amended: for every record and every month in 1..12, the
total score is an integer between 0 and 10 inclusive (2 density + 3
metro access + 3 road terrain + 2 carrier). -/
theorem C2_total_in_zero_to_ten (r : Option ZipRecord) (m : ℕ)
    (h1 : 1 ≤ m) (h2 : m ≤ 12) :
    0 ≤ (computeRemotenessComponents r m).totalScore ∧
    (computeRemotenessComponents r m).totalScore ≤ 10 := by
  refine ⟨Nat.zero_le _, ?_⟩
  rcases r with _ | z
  · simp [computeRemotenessComponents]
  · have hd := densityScoreOf_le z.population_density
    have hm := metroAccessScoreOf_le z.drive_time_city_100k_min z.drive_time_interstate_min
    have ht := roadTerrainScoreOf_le z.is_mountain z.is_island z.winter_risk m
    have hc := carrierScoreOf_le (z.carrier_scarcity_index.getD 0)
    show densityScoreOf z.population_density +
        metroAccessScoreOf z.drive_time_city_100k_min z.drive_time_interstate_min +
        roadTerrainScoreOf z.is_mountain z.is_island z.winter_risk m +
        carrierScoreOf (z.carrier_scarcity_index.getD 0) ≤ 10
    omega

/-- Witness for the amended C2 bound at the concrete test vector and
month 1. -/
theorem C2_total_in_zero_to_ten_witness :
    (1 : ℕ) ≤ 1 ∧ (1 : ℕ) ≤ 12 ∧
    (0 ≤ (computeRemotenessComponents (some rec3) 1).totalScore ∧
      (computeRemotenessComponents (some rec3) 1).totalScore ≤ 10) :=
  ⟨by decide, by decide, C2_total_in_zero_to_ten (some rec3) 1 (by decide) (by decide)⟩

/-- Claim C6: for every record and month in 1..12, the road terrain
component is the mountain and island contributions plus the winter bonus,
and the bonus is 1 exactly when winter risk is set and the month is one
of 11, 12, 1, 2, 3 (so month 3 gets it and month 4 does not). -/
theorem C6_winter_bonus_iff (z : ZipRecord) (m : ℕ) (h1 : 1 ≤ m) (h2 : m ≤ 12) :
    (computeRemotenessComponents (some z) m).roadTerrainScore =
      (if z.is_mountain then 1 else 0) + (if z.is_island then 1 else 0) +
      (if z.winter_risk = true ∧ (m = 11 ∨ m = 12 ∨ m = 1 ∨ m = 2 ∨ m = 3)
        then 1 else 0) := by
  show roadTerrainScoreOf z.is_mountain z.is_island z.winter_risk m = _
  unfold roadTerrainScoreOf
  congr 1
  cases z.winter_risk <;> interval_cases m <;> decide

/-- Witness for C6 at month 3 (a winter month) with a winter-risk record:
the bonus applies and the road terrain score is 1. -/
theorem C6_winter_bonus_iff_witness :
    (1 : ℕ) ≤ 3 ∧ (3 : ℕ) ≤ 12 ∧
    (computeRemotenessComponents (some recWinter) 3).roadTerrainScore =
      (if recWinter.is_mountain then 1 else 0) +
      (if recWinter.is_island then 1 else 0) +
      (if recWinter.winter_risk = true ∧
          ((3 : ℕ) = 11 ∨ (3 : ℕ) = 12 ∨ (3 : ℕ) = 1 ∨ (3 : ℕ) = 2 ∨ (3 : ℕ) = 3)
        then 1 else 0) :=
  ⟨by decide, by decide, C6_winter_bonus_iff recWinter 3 (by decide) (by decide)⟩

/-- Claim C1 counterexample: starting from a store that resolves key
11111, a failed reload (unreadable or unparseable source) changes that
lookup from found to not found, and the endpoint still answers status
reloaded with count 0 instead of reporting a failure. -/
theorem C1_counterexample_failed_reload_empties :
    store1.zipIndex "11111" = some recA ∧
    (reloadZips store1 none).fst.zipIndex "11111" = none ∧
    (reloadZips store1 none).fst.zipIndex "11111" ≠ store1.zipIndex "11111" ∧
    (reloadZips store1 none).snd = ⟨"reloaded", 0⟩ := by
  refine ⟨by decide, rfl, by decide, rfl⟩

/-- Claim C1 amended: when the load of the source fails, the catch block
empties both the dataset and the index (every lookup then misses), and
the reload endpoint reports success (status reloaded) with count 0
rather than an error. -/
theorem C1_failed_reload_clears_store (prev : Store) (k : String) :
    (reloadZips prev none).fst.zipData = [] ∧
    (reloadZips prev none).fst.zipIndex k = none ∧
    (reloadZips prev none).snd = ⟨"reloaded", 0⟩ :=
  ⟨rfl, rfl, rfl⟩

/-- Pointwise description of one forEach step: a record with a truthy
zip key equal to the looked-up key replaces the entry, anything else
leaves the lookup unchanged. -/
theorem indexStep_apply (idx : String → Option ZipRecord) (z : ZipRecord) (k : String) :
    indexStep idx z k = if z.zip = some k ∧ k ≠ "" then some z else idx k := by
  rcases hz : z.zip with _ | s
  · simp [indexStep, hz]
  · simp only [indexStep, hz]
    by_cases hs : s = ""
    · subst hs
      rw [if_pos rfl]
      by_cases hk : k = ""
      · subst hk; simp
      · simp only [Option.some.injEq]
        rw [if_neg]
        rintro ⟨he, _⟩
        exact hk he.symm
    · rw [if_neg hs]
      by_cases hk : k = s
      · subst hk
        rw [if_pos rfl, if_pos ⟨rfl, hs⟩]
      · rw [if_neg hk, if_neg]
        rintro ⟨he, _⟩
        exact hk (Option.some.inj he).symm

/-- The forEach fold over any initial index, described pointwise: the
lookup returns the last matching record of the list when one exists, and
falls back to the initial index otherwise. -/
theorem foldl_indexStep_lookup (zs : List ZipRecord) :
    ∀ (idx : String → Option ZipRecord) (k : String),
      (zs.foldl indexStep idx) k =
        match lastRecordWithKey zs k with
        | some w => some w
        | none => idx k := by
  induction zs with
  | nil => intro idx k; rfl
  | cons z zs ih =>
    intro idx k
    rw [List.foldl_cons, ih]
    cases h : lastRecordWithKey zs k with
    | some w => simp [lastRecordWithKey, h]
    | none =>
      simp only [lastRecordWithKey, h, indexStep_apply]
      by_cases hc : z.zip = some k ∧ k ≠ "" <;> simp [hc]

/-- Claim C9: loading a dataset that contains duplicate keys succeeds
(the parsed list is stored as-is), and every lookup resolves to the
record that appears last in the source sequence among those with that
truthy key — later records silently overwrite earlier ones. -/
theorem C9_duplicate_key_last_wins (prev : Store) (zs : List ZipRecord) (k : String) :
    (loadZipData prev (some zs)).zipData = zs ∧
    (loadZipData prev (some zs)).zipIndex k = lastRecordWithKey zs k := by
  refine ⟨rfl, ?_⟩
  show buildZipIndex zs k = lastRecordWithKey zs k
  rw [buildZipIndex, foldl_indexStep_lookup]
  cases lastRecordWithKey zs k <;> rfl

/-- Claim C10: a successful reload always reports the length of the
parsed list, and in the concrete dataset with one keyed record and one
record without a key the endpoint reports 2 while the index resolves
exactly the single key 11111 — the reported count exceeds the number of
resolvable keys. -/
theorem C10_reload_count_is_parsed_length :
    (∀ (prev : Store) (zs : List ZipRecord),
      (reloadZips prev (some zs)).snd = ⟨"reloaded", zs.length⟩) ∧
    (reloadZips store0 (some [recA, recNoKey])).snd.total_zips = 2 ∧
    (reloadZips store0 (some [recA, recNoKey])).fst.zipIndex =
      (fun k => if k = "11111" then some recA else none) := by
  refine ⟨fun prev zs => rfl, rfl, funext fun k => ?_⟩
  show buildZipIndex [recA, recNoKey] k = _
  show indexStep (indexStep (fun _ => none) recA) recNoKey k = _
  rw [indexStep_apply, indexStep_apply]
  by_cases hk : k = "11111"
  · subst hk
    rw [if_neg (by decide), if_pos (by exact ⟨rfl, by decide⟩), if_pos rfl]
  · rw [if_neg (by simp [recNoKey]), if_neg, if_neg hk]
    rintro ⟨he, _⟩
    exact hk (Option.some.inj he).symm

end RemotenessApi
